import Mathlib

/-!
Shallow embedding of the chat / workspace / database components of the
AGISOL app-builder repository, together with theorems settling the claims
of its specification.

Embedded sources:
* `src/components/chat/ChatInterface.tsx` — `handleSendWithTemplate`
  (message lifecycle, context windowing, persistence, artifact extraction);
* `src/components/database/DatabaseManager.tsx` — `loadTables`,
  `executeQuery` (schema inspector) and the `CodeEditor` component
  (auto-open effect, `closeTab`).

State updates of the React components are modelled by explicit state
passing; the asynchronous collaborator calls (database client, inference
endpoint) are modelled by an environment record that fixes each call's
outcome, and the calls themselves are recorded in an effect trace.
-/

namespace Agisol

/- ### JavaScript string primitives, over character lists so that concrete
instances reduce in the kernel -/

/-- JavaScript `String.prototype.trim` on a character list. -/
def jsTrimChars (s : List Char) : List Char :=
  ((s.dropWhile Char.isWhitespace).reverse.dropWhile Char.isWhitespace).reverse

/-- JavaScript `s.trim()`. -/
def jsTrim (s : String) : String :=
  String.mk (jsTrimChars s.data)

/-- Split a character list on a separator character, keeping empty pieces
(JavaScript `split` with a one-character separator). -/
def splitOnCharAux (sep : Char) : List Char → List Char → List (List Char)
  | [], acc => [acc.reverse]
  | c :: cs, acc =>
    if c = sep then acc.reverse :: splitOnCharAux sep cs []
    else splitOnCharAux sep cs (c :: acc)

/-- JavaScript `s.split(sep)` for a one-character separator. -/
def jsSplitOnChar (sep : Char) (s : String) : List String :=
  (splitOnCharAux sep s.data []).map String.mk

/-- JavaScript `lines.join('\n')`. -/
def jsJoinLines : List String → String
  | [] => ""
  | [l] => l
  | l :: ls => l ++ "\n" ++ jsJoinLines ls

/-- A thrown JavaScript value, as observed by
`err instanceof Error ? err.message : fallback`. -/
inductive JsError where
  | errorObj (msg : String)
  | nonError
deriving DecidableEq, Repr

/-- `err instanceof Error ? err.message : fallback`. -/
def jsErrorMessage (fallback : String) : JsError → String
  | .errorObj m => m
  | .nonError => fallback

/-- JavaScript truthiness of an optional string field (`if (data.error)`):
an absent field and an empty string are both falsy. -/
def jsTruthyOptStr : Option String → Bool
  | none => false
  | some v => v ≠ ""

/-- The authenticated user (`User` in `src/types`); only `id` is read by the
chat component. -/
structure User where
  id : String
deriving DecidableEq, Repr

/-- `ChatMessage` from `src/types/index.ts`. -/
structure ChatMessage where
  id : String
  role : String
  content : String
  timestamp : Nat
  projectId : String
  userId : String
  isStreaming : Option Bool := none
deriving DecidableEq, Repr

/-- The component state of `ChatInterface` that `handleSendWithTemplate`
reads and writes: `messages`, `input`, `isStreaming`. -/
structure ChatState where
  messages : List ChatMessage
  input : String
  isStreaming : Bool
deriving DecidableEq, Repr

/-- Outcome of the `fetch` to the inference endpoint followed by
`response.json()`: either the whole round-trip throws, or a JSON payload
`{error?, response, html?}` is obtained. -/
inductive FetchOutcome where
  | networkFailure (e : JsError)
  | payload (error : Option String) (response : String) (html : Option String)
deriving DecidableEq, Repr

/-- Environment fixing the outcome of every collaborator call made by one
run of `handleSendWithTemplate`, and the values returned by the four
`Date.now()` calls (`t1` for the user-message id, `t2` for its timestamp,
`t3` for the assistant-message id, `t4` for its timestamp). -/
structure SendEnv where
  t1 : Nat
  t2 : Nat
  t3 : Nat
  t4 : Nat
  saveUser : Except JsError Unit
  fetch : FetchOutcome
  saveAssistant : Except JsError Unit
  onCodeGenerated : Bool
deriving Repr

/-- Observable effects of one run of `handleSendWithTemplate`:
persistence calls, the inference request (with its JSON body reduced to
`{role, content}` pairs), invocations of the `onCodeGenerated` callback,
and console error logging. -/
inductive Effect where
  | dbCreateUser (m : ChatMessage)
  | inferenceRequest (body : List (String × String)) (template : Option String)
  | dbCreateAssistant (id : String) (content : String) (timestamp : Nat)
  | codeGenerated (code : String) (fileName : String)
  | consoleError (tag : String)
deriving DecidableEq, Repr

/- ### Artifact extraction (lines 156–169 of ChatInterface.tsx) -/

/-- `['`','`','`']`, the fence delimiter, as characters. -/
def fenceChars : List Char := ['\x60', '\x60', '\x60']

/-- Does the character list begin with three backticks? -/
def startsWithFence (s : List Char) : Bool :=
  fenceChars.isPrefixOf s

/-- Locate the first occurrence of ``` in a character list, returning the
characters before it and the remainder starting at the fence. -/
def findFence : List Char → Option (List Char × List Char)
  | [] => none
  | c :: cs =>
    if startsWithFence (c :: cs) then some ([], c :: cs)
    else
      match findFence cs with
      | some (pre, rest) => some (c :: pre, rest)
      | none => none

/-- Fuel-indexed scanner reproducing the global lazy regex
`/```[\s\S]*?```/g`: repeatedly take the first fence, pair it with the
nearest following fence, emit the span (delimiters included), and resume
after it. -/
def fencedBlocksAux : Nat → List Char → List (List Char)
  | 0, _ => []
  | fuel + 1, s =>
    match findFence s with
    | none => []
    | some (_, atOpen) =>
      let afterOpen := atOpen.drop 3
      match findFence afterOpen with
      | none => []
      | some (mid, atClose) =>
        (fenceChars ++ mid ++ fenceChars) :: fencedBlocksAux fuel (atClose.drop 3)

/-- All matches of `/```[\s\S]*?```/g` on the response text
(`fullResponse.match(...)`, with `null` rendered as `[]`). -/
def fencedBlocks (s : String) : List String :=
  (fencedBlocksAux s.data.length s.data).map String.mk

/-- JavaScript `s.replace(pat, '')` with a string pattern: remove the first
occurrence of `pat` only. -/
def jsReplaceFirstAux (pat : List Char) : List Char → List Char
  | [] => []
  | c :: cs =>
    if pat.isPrefixOf (c :: cs) then (c :: cs).drop pat.length
    else c :: jsReplaceFirstAux pat cs

/-- `line.replace('```', '')` as a `String` operation. -/
def jsReplaceFirstFence (s : String) : String :=
  String.mk (jsReplaceFirstAux fenceChars s.data)

/-- `block.split('\n')`. -/
def blockLines (block : String) : List String :=
  jsSplitOnChar '\n' block

/-- `lines[0].replace('```', '').trim()` — the language tag of a fenced
block. -/
def fenceTag (block : String) : String :=
  jsTrim (jsReplaceFirstFence ((blockLines block).headD ""))

/-- `lines.slice(1, -1).join('\n')` — the body of a fenced block. -/
def fenceBody (block : String) : String :=
  jsJoinLines ((blockLines block).drop 1).dropLast

/-- `` `generated.${language || 'txt'}` `` — the file name given to a code
artifact, a function of the language tag alone. -/
def artifactName (tag : String) : String :=
  "generated." ++ (if tag = "" then "txt" else tag)

/-- The artifact emitted for one fenced block: its body and file name, or
`none` when the body is whitespace-only (`if (code.trim())`). -/
def blockArtifact (block : String) : Option (String × String) :=
  if jsTrim (fenceBody block) = "" then none
  else some (fenceBody block, artifactName (fenceTag block))

/-- All code artifacts extracted from one response text, in order. -/
def extractArtifacts (response : String) : List (String × String) :=
  (fencedBlocks response).filterMap blockArtifact

/-- `fullResponse.includes('```')`. -/
def containsFence (s : String) : Bool :=
  (findFence s.data).isSome

/- ### handleSendWithTemplate (lines 61–177 of ChatInterface.tsx) -/

/-- The optimistically appended user message (lines 64–71). -/
def mkUserMessage (messageContent projectId : String) (u : User)
    (env : SendEnv) : ChatMessage :=
  { id := "msg_" ++ toString env.t1 ++ "_user"
    role := "user"
    content := jsTrim messageContent
    timestamp := env.t2
    projectId := projectId
    userId := u.id }

/-- The provisional assistant message (lines 89–97). -/
def mkAssistantMessage (projectId : String) (u : User)
    (env : SendEnv) : ChatMessage :=
  { id := "msg_" ++ toString env.t3 ++ "_assistant"
    role := "assistant"
    content := ""
    timestamp := env.t4
    projectId := projectId
    userId := u.id
    isStreaming := some true }

/-- The component state after the synchronous prefix of an accepted send
(lines 73–75): user message appended, input cleared, guard raised. This is
the state a second invocation observes while the first is in flight. -/
def inflightState (messageContent projectId : String) (u : User)
    (env : SendEnv) (s : ChatState) : ChatState :=
  { s with messages := s.messages ++ [mkUserMessage messageContent projectId u env]
           input := ""
           isStreaming := true }

/-- The inference request body (lines 107–116): the closure's `messages`
value (the log as of call entry), windowed to its last five entries, plus
the new user message, each reduced to `{role, content}`. -/
def requestBody (messageContent projectId : String) (u : User)
    (env : SendEnv) (s : ChatState) : List (String × String) :=
  ((s.messages.drop (s.messages.length - 5)) ++
      [mkUserMessage messageContent projectId u env]).map
    (fun msg => (msg.role, msg.content))

/-- The `onCodeGenerated` calls of a successful send (lines 151–169): the
`html` side channel first (when truthy), then one call per extracted code
artifact, guarded by `fullResponse.includes('```')`. -/
def artifactEffects (fullResponse : String) (html : Option String)
    (onCodeGen : Bool) : List Effect :=
  (match html, onCodeGen with
   | some h, true => if h ≠ "" then [Effect.codeGenerated h "index.html"] else []
   | _, _ => []) ++
  (if containsFence fullResponse ∧ onCodeGen then
    (extractArtifacts fullResponse).map (fun a => Effect.codeGenerated a.1 a.2)
  else [])

/-- `handleSendWithTemplate(messageContent, template)` as a state-and-trace
transformer. The guard (line 62), the optimistic append (73–75), the try
block (77–169) with its four suspension points (user persist, fetch,
payload error check — a truthiness test, so an empty-string error field
proceeds to the success path — and assistant persist), the catch (171–173,
removing the last message), and the finally (174–176, clearing the
guard). -/
def handleSendWithTemplate (messageContent : String) (template : Option String)
    (user : Option User) (projectId : String) (env : SendEnv)
    (s : ChatState) : ChatState × List Effect :=
  match user with
  | none => (s, [])
  | some u =>
    if jsTrim messageContent = "" ∨ s.isStreaming then (s, [])
    else
      let userMessage := mkUserMessage messageContent projectId u env
      let s1 := inflightState messageContent projectId u env s
      match env.saveUser with
      | .error _ =>
        ({ s1 with messages := s1.messages.dropLast, isStreaming := false },
         [Effect.dbCreateUser userMessage,
          Effect.consoleError "Failed to send message:"])
      | .ok _ =>
        let assistantMessage := mkAssistantMessage projectId u env
        let s2 := { s1 with messages := s1.messages ++ [assistantMessage] }
        let body := requestBody messageContent projectId u env s
        match env.fetch with
        | .networkFailure _ =>
          ({ s2 with messages := s2.messages.dropLast, isStreaming := false },
           [Effect.dbCreateUser userMessage,
            Effect.inferenceRequest body template,
            Effect.consoleError "Failed to send message:"])
        | .payload err resp html =>
          if jsTruthyOptStr err then
            ({ s2 with messages := s2.messages.dropLast, isStreaming := false },
             [Effect.dbCreateUser userMessage,
              Effect.inferenceRequest body template,
              Effect.consoleError "Failed to send message:"])
          else
            let fullResponse := resp
            let s3 := { s2 with messages := s2.messages.map (fun (msg : ChatMessage) =>
              if msg.id = assistantMessage.id then { msg with content := fullResponse }
              else msg) }
            match env.saveAssistant with
            | .error _ =>
              ({ s3 with messages := s3.messages.dropLast, isStreaming := false },
               [Effect.dbCreateUser userMessage,
                Effect.inferenceRequest body template,
                Effect.dbCreateAssistant assistantMessage.id fullResponse
                  assistantMessage.timestamp,
                Effect.consoleError "Failed to send message:"])
            | .ok _ =>
              let s4 := { s3 with messages := s3.messages.map (fun (msg : ChatMessage) =>
                if msg.id = assistantMessage.id then { msg with isStreaming := some false }
                else msg) }
              ({ s4 with isStreaming := false },
               [Effect.dbCreateUser userMessage,
                Effect.inferenceRequest body template,
                Effect.dbCreateAssistant assistantMessage.id fullResponse
                  assistantMessage.timestamp] ++
               artifactEffects fullResponse html env.onCodeGenerated)

/-- Number of user-message persistence calls in a trace. -/
def countUserPersists : List Effect → Nat
  | [] => 0
  | Effect.dbCreateUser _ :: rest => countUserPersists rest + 1
  | _ :: rest => countUserPersists rest

/-- Number of assistant-message persistence calls in a trace. -/
def countAssistantPersists : List Effect → Nat
  | [] => 0
  | Effect.dbCreateAssistant _ _ _ :: rest => countAssistantPersists rest + 1
  | _ :: rest => countAssistantPersists rest

/-- Number of inference requests in a trace. -/
def countInference : List Effect → Nat
  | [] => 0
  | Effect.inferenceRequest _ _ :: rest => countInference rest + 1
  | _ :: rest => countInference rest

/-- Number of `onCodeGenerated` invocations in a trace. -/
def countCodeGenerated : List Effect → Nat
  | [] => 0
  | Effect.codeGenerated _ _ :: rest => countCodeGenerated rest + 1
  | _ :: rest => countCodeGenerated rest

/- ### DatabaseManager.tsx: loadTables and executeQuery -/

/-- JavaScript `s.toLowerCase()`, restricted to the ASCII case mapping. -/
def jsToLower (s : String) : String :=
  String.mk (s.data.map Char.toLower)

/-- Substring occurrence as a Boolean, scanning left to right. -/
def listContains (pat : List Char) : List Char → Bool
  | [] => pat.isEmpty
  | c :: cs => pat.isPrefixOf (c :: cs) || listContains pat cs

/-- JavaScript `s.includes(needle)`. -/
def jsIncludes (needle s : String) : Bool :=
  listContains needle.data s.data

/-- `DatabaseColumn` from `src/types/index.ts`. -/
structure DatabaseColumn where
  name : String
  type : String
  nullable : Bool
  primaryKey : Bool
deriving DecidableEq, Repr

/-- `DatabaseTable` from `src/types/index.ts`. -/
structure DatabaseTable where
  name : String
  columns : List DatabaseColumn
  rowCount : Nat
deriving DecidableEq, Repr

/-- One row returned by `blink.db.sql`, with the dynamically-typed fields
the schema inspector reads: `row.name` (table listing), `col.name`,
`col.type`, `col.notnull`, `col.pk` (PRAGMA), and `count`. -/
structure SqlRow where
  name : String := ""
  coltype : String := ""
  notnull : Bool := false
  pk : Nat := 0
  count : Nat := 0
deriving DecidableEq, Repr

/-- The backing relational engine: each statement either yields rows or
throws. -/
def SqlEngine := String → Except JsError (List SqlRow)

/-- The component state of `DatabaseManager` read and written by
`loadTables` and `executeQuery`. -/
structure DbState where
  tables : List DatabaseTable
  sqlQuery : String
  queryResult : Option (List SqlRow)
  isLoading : Bool
  error : Option String
deriving Repr

/-- The table-listing statement issued by `loadTables` (lines 38–42). -/
def masterTablesSql : String :=
  "SELECT name FROM sqlite_master WHERE type='table' AND name NOT LIKE 'sqlite_%' ORDER BY name"

/-- The body of the `for` loop of `loadTables` (lines 46–67): for each
listed table, fetch its schema and row count; a throw from either call
escapes to the enclosing catch. -/
def buildTableList (engine : SqlEngine) : List SqlRow → Except JsError (List DatabaseTable)
  | [] => .ok []
  | row :: rest => do
    let tableName := row.name
    let schemaResult ← engine ("PRAGMA table_info(" ++ tableName ++ ")")
    let columns : List DatabaseColumn := schemaResult.map (fun col =>
      { name := col.name
        type := col.coltype
        nullable := !col.notnull
        primaryKey := col.pk = 1 })
    let countResult ← engine ("SELECT COUNT(*) as count FROM " ++ tableName)
    let rowCount := ((countResult.head?).map SqlRow.count).getD 0
    let restTables ← buildTableList engine rest
    pure ({ name := tableName, columns := columns, rowCount := rowCount } :: restTables)

/-- `loadTables` (lines 32–75): list the tables and describe each; on any
throw, set the error string from the caught value and leave `tables`
untouched; clear `isLoading` in all cases. -/
def loadTables (engine : SqlEngine) (s : DbState) : DbState :=
  match (do
      let result ← engine masterTablesSql
      buildTableList engine result : Except JsError (List DatabaseTable)) with
  | .ok tableList => { s with tables := tableList, error := none, isLoading := false }
  | .error e =>
    { s with error := some (jsErrorMessage "Failed to load tables" e)
             isLoading := false }

/-- The schema-refresh condition of `executeQuery` (lines 107–109). -/
def schemaRefreshHeuristic (sqlQuery : String) : Bool :=
  jsIncludes "create" (jsToLower sqlQuery) ||
  jsIncludes "drop" (jsToLower sqlQuery) ||
  jsIncludes "alter" (jsToLower sqlQuery)

/-- `executeQuery` (lines 96–117) as a state transformer, also reporting
whether the automatic table-list refresh ran. -/
def executeQuery (engine : SqlEngine) (s : DbState) : DbState × Bool :=
  if jsTrim s.sqlQuery = "" then (s, false)
  else
    match engine s.sqlQuery with
    | .error e =>
      ({ s with error := some (jsErrorMessage "Query execution failed" e)
                isLoading := false }, false)
    | .ok result =>
      let s1 := { s with queryResult := some result, error := none, isLoading := false }
      if schemaRefreshHeuristic s.sqlQuery then (loadTables engine s1, true)
      else (s1, false)

/- ### CodeEditor (DatabaseManager.tsx lines 610–667): auto-open and tabs -/

/-- `FileNode` from `src/types/index.ts`; `children` is meaningful for
directories, `content` for files. -/
inductive FileNode where
  | node (name : String) (path : String) (ftype : String)
      (content : Option String) (children : List FileNode)

/-- The `name` field. -/
def FileNode.name : FileNode → String
  | .node n _ _ _ _ => n

/-- The `path` field. -/
def FileNode.path : FileNode → String
  | .node _ p _ _ _ => p

/-- The `content` field. -/
def FileNode.content : FileNode → Option String
  | .node _ _ _ c _ => c

/-- The `CodeEditor` component state touched by the auto-open effect and
`closeTab`. -/
structure EditorState where
  selectedFile : Option String
  fileContents : List (String × String)
  openTabs : List String
deriving DecidableEq, Repr

/-- `{...prev, [path]: content}` on the `fileContents` record: replace the
binding if the key exists, else append it. -/
def setRecord (key value : String) : List (String × String) → List (String × String)
  | [] => [(key, value)]
  | (k, v) :: rest =>
    if k = key then (k, value) :: rest else (k, v) :: setRecord key value rest

/-- The filter of the auto-open effect (lines 618–622). -/
def isMainFileName (f : FileNode) : Bool :=
  f.name = "App.tsx" || f.name = "main.tsx" || f.name = "index.tsx"

/-- The auto-open effect body (lines 616–631): over the top-level `files`
array, keep the entries named `App.tsx`, `main.tsx` or `index.tsx`; when
some exist and no tabs are open, open the first of them and stash its
content when truthy. -/
def autoOpenMainFile (files : List FileNode) (s : EditorState) : EditorState :=
  let mainFiles := files.filter isMainFileName
  if mainFiles.length > 0 ∧ s.openTabs.length = 0 then
    match mainFiles with
    | [] => s
    | mainFile :: _ =>
      let s1 := { s with openTabs := [mainFile.path], selectedFile := some mainFile.path }
      match mainFile.content with
      | some c =>
        if c ≠ "" then { s1 with fileContents := setRecord mainFile.path c s1.fileContents }
        else s1
      | none => s1
  else s

/-- `closeTab` (lines 661–667): drop the path from `openTabs`; when it was
selected, select `remainingTabs[remainingTabs.length - 1]`, or `null` when
none remain. -/
def closeTab (path : String) (s : EditorState) : EditorState :=
  let newTabs := s.openTabs.filter (fun tab => tab ≠ path)
  if s.selectedFile = some path then
    let remainingTabs := s.openTabs.filter (fun tab => tab ≠ path)
    { s with openTabs := newTabs
             selectedFile := if remainingTabs.length > 0 then remainingTabs.getLast? else none }
  else { s with openTabs := newTabs }


/- ### Helper lemmas -/

/-- `listContains` decides substring occurrence. -/
theorem listContains_iff_infix (pat l : List Char) :
    listContains pat l = true ↔ pat <:+: l := by
  induction l with
  | nil =>
    simp [listContains, List.isEmpty_iff, List.infix_nil]
  | cons c cs ih =>
    simp only [listContains, Bool.or_eq_true, List.infix_cons_iff,
      List.isPrefixOf_iff_prefix, ih]

/-- The refresh heuristic in terms of substring occurrence. -/
theorem schemaRefreshHeuristic_iff (q : String) :
    schemaRefreshHeuristic q = true ↔
      ("create".data <:+: (jsToLower q).data ∨
       "drop".data <:+: (jsToLower q).data ∨
       "alter".data <:+: (jsToLower q).data) := by
  simp only [schemaRefreshHeuristic, jsIncludes, Bool.or_eq_true,
    listContains_iff_infix, or_assoc]

/-- C8 witness query containing the word create only inside a string
literal. -/
def quotedCreateQuery : String :=
  "SELECT " ++ String.mk ['\x27'] ++ "create" ++ String.mk ['\x27'] ++ " FROM todos"

/-- A database state holding a given query text with nothing else set. -/
def dbStateFor (q : String) : DbState :=
  { tables := [], sqlQuery := q, queryResult := none, isLoading := false, error := none }

/-- An engine that answers every statement with an empty row set. -/
def emptyEngine : SqlEngine := fun _ => .ok []

/-- C8: after a successful execute, the table-list refresh runs exactly when
the statement text case-insensitively contains create, drop or alter as a
substring; in particular executing "DROP TABLE todos" refreshes, and so does
a SELECT with the word create inside a string literal. -/
theorem executeQuery_refresh_iff (engine : SqlEngine) (s : DbState)
    (result : List SqlRow)
    (hne : jsTrim s.sqlQuery ≠ "")
    (hok : engine s.sqlQuery = .ok result) :
    ((executeQuery engine s).2 = true ↔
      ("create".data <:+: (jsToLower s.sqlQuery).data ∨
       "drop".data <:+: (jsToLower s.sqlQuery).data ∨
       "alter".data <:+: (jsToLower s.sqlQuery).data)) ∧
    (executeQuery emptyEngine (dbStateFor "DROP TABLE todos")).2 = true ∧
    (executeQuery emptyEngine (dbStateFor quotedCreateQuery)).2 = true := by
  refine ⟨?_, by decide, by decide⟩
  rw [← schemaRefreshHeuristic_iff]
  unfold executeQuery
  rw [if_neg hne, hok]
  by_cases h : schemaRefreshHeuristic s.sqlQuery
  · simp [h]
  · simp [h]

theorem executeQuery_refresh_iff_witness :
    (executeQuery emptyEngine (dbStateFor "DROP TABLE todos")).2 = true :=
  (executeQuery_refresh_iff emptyEngine (dbStateFor "DROP TABLE todos") []
    (by decide) rfl).2.1


/-- C9: engine failures during a table-list refresh or an ad-hoc execute
surface as human-readable error strings on the state, and the displayed
table list is left unchanged. -/
theorem schema_failure_semantics (engine : SqlEngine) (s : DbState) (e : JsError) :
    (((do
        let result ← engine masterTablesSql
        buildTableList engine result : Except JsError (List DatabaseTable)) = .error e) →
      (loadTables engine s).error = some (jsErrorMessage "Failed to load tables" e) ∧
      (loadTables engine s).tables = s.tables) ∧
    (jsTrim s.sqlQuery ≠ "" → engine s.sqlQuery = .error e →
      (executeQuery engine s).1.error = some (jsErrorMessage "Query execution failed" e) ∧
      (executeQuery engine s).1.tables = s.tables ∧
      (executeQuery engine s).1.queryResult = s.queryResult) := by
  constructor
  · intro hfail
    unfold loadTables
    rw [hfail]
    exact ⟨rfl, rfl⟩
  · intro hne hfail
    unfold executeQuery
    rw [if_neg hne, hfail]
    exact ⟨rfl, rfl, rfl⟩

/-- An engine whose every statement throws an `Error` object. -/
def failingEngine : SqlEngine := fun _ => .error (.errorObj "disk I/O error")

theorem schema_failure_semantics_witness :
    (loadTables failingEngine (dbStateFor "x")).error = some "disk I/O error" ∧
    (loadTables failingEngine (dbStateFor "x")).tables = [] :=
  (schema_failure_semantics failingEngine (dbStateFor "x") (.errorObj "disk I/O error")).1 rfl

/-- C7 counterexample: with open tabs a, b, c and b active, closing b
activates c (the last remaining tab), not a (the tab immediately preceding
b), so the claimed activation rule fails. -/
theorem closeTab_counterexample :
    (closeTab "b"
        { selectedFile := some "b", fileContents := [], openTabs := ["a", "b", "c"] }).selectedFile =
      some "c" ∧
    (some "c" : Option String) ≠ some "a" := by decide

/-- C7 amended: closeTab removes the path from openTabs; when it was the
active tab, the last remaining tab in open order (the most recently opened
one) becomes active, or none when the list is empty; otherwise the active
tab is unchanged. -/
theorem closeTab_spec (s : EditorState) (path : String)
    (hmem : path ∈ s.openTabs) :
    (closeTab path s).openTabs = s.openTabs.filter (fun t => t ≠ path) ∧
    (s.selectedFile = some path →
      (closeTab path s).selectedFile =
        ((s.openTabs.filter (fun t => t ≠ path)).reverse).head?) ∧
    (s.selectedFile ≠ some path → (closeTab path s).selectedFile = s.selectedFile) := by
  unfold closeTab
  by_cases hsel : s.selectedFile = some path
  · rw [if_pos hsel]
    refine ⟨rfl, fun _ => ?_, fun h => absurd hsel h⟩
    simp only
    rw [← List.getLast?_eq_head?_reverse]
    by_cases hlen : (s.openTabs.filter (fun t => t ≠ path)).length > 0
    · rw [if_pos hlen]
    · rw [if_neg hlen]
      have : s.openTabs.filter (fun t => t ≠ path) = [] := by
        cases h : s.openTabs.filter (fun t => t ≠ path) with
        | nil => rfl
        | cons a l => rw [h] at hlen; simp at hlen
      rw [this]
      rfl
  · rw [if_neg hsel]
    exact ⟨rfl, fun h => absurd h hsel, fun _ => rfl⟩

theorem closeTab_spec_witness :
    ("b" : String) ∈ (["a", "b", "c"] : List String) ∧
    (closeTab "b"
        { selectedFile := some "b", fileContents := [], openTabs := ["a", "b", "c"] }).openTabs =
      ["a", "c"] :=
  ⟨by decide, by
    have h := (closeTab_spec
      { selectedFile := some "b", fileContents := [], openTabs := ["a", "b", "c"] } "b"
      (by decide)).1
    rw [h]
    decide⟩


/-- C6 counterexample file tree: `App.tsx` exists only nested inside the
`src` directory, while `main.tsx` sits at the top level. -/
def nestedAppTree : List FileNode :=
  [ .node "src" "src" "directory" none
      [ .node "App.tsx" "src/App.tsx" "file" (some "export default App") [] ],
    .node "main.tsx" "main.tsx" "file" (some "render()") [] ]

/-- The editor state before any tab is open. -/
def freshEditorState : EditorState :=
  { selectedFile := none, fileContents := [], openTabs := [] }

/-- C6 counterexample: with `App.tsx` present in the tree (nested under
`src/`) and `main.tsx` at the top level, the auto-open effect opens
`main.tsx` — the filter neither recurses into directories nor applies the
App-before-main priority, so the claimed policy fails. -/
theorem autoOpen_counterexample :
    (autoOpenMainFile nestedAppTree freshEditorState).openTabs = ["main.tsx"] ∧
    (autoOpenMainFile nestedAppTree freshEditorState).selectedFile = some "main.tsx" ∧
    ("main.tsx" : String) ≠ "src/App.tsx" := by decide

/-- C6 amended: when no tabs are open, the first entry of the top-level
files list named App.tsx, main.tsx or index.tsx — in list order, without
descending into directories — is opened: it becomes the sole open tab and
the selected file, and its content is stashed into the contents record
when non-empty (a falsy — absent or empty — content leaves the record
unchanged); with no such entry, or with tabs already open, the state is
unchanged. -/
theorem autoOpen_spec (files : List FileNode) (s : EditorState)
    (hempty : s.openTabs = []) :
    (∀ f rest, files.filter isMainFileName = f :: rest →
      (autoOpenMainFile files s).openTabs = [f.path] ∧
      (autoOpenMainFile files s).selectedFile = some f.path ∧
      (∀ c, f.content = some c → c ≠ "" →
        (autoOpenMainFile files s).fileContents =
          setRecord f.path c s.fileContents) ∧
      ((f.content = none ∨ f.content = some "") →
        (autoOpenMainFile files s).fileContents = s.fileContents)) ∧
    (files.filter isMainFileName = [] → autoOpenMainFile files s = s) ∧
    (∀ s2 : EditorState, s2.openTabs ≠ [] → autoOpenMainFile files s2 = s2) := by
  refine ⟨?_, ?_, ?_⟩
  · intro f rest hfilter
    unfold autoOpenMainFile
    rw [hfilter]
    have hguard : (f :: rest).length > 0 ∧ s.openTabs.length = 0 := by
      simp [hempty]
    rw [if_pos hguard]
    cases hc : f.content with
    | none =>
      refine ⟨by simp [hc], by simp [hc], ?_, fun _ => by simp [hc]⟩
      intro c hcc _
      cases hcc
    | some c0 =>
      by_cases hce : c0 = ""
      · subst hce
        refine ⟨by simp [hc], by simp [hc], ?_, fun _ => by simp [hc]⟩
        intro c hcc hcne
        cases hcc
        exact absurd rfl hcne
      · refine ⟨by simp [hc, hce], by simp [hc, hce], ?_, ?_⟩
        · intro c hcc _
          cases hcc
          simp [hc, hce]
        · intro habs
          rcases habs with h | h
          · cases h
          · cases h
            exact absurd rfl hce
  · intro hfilter
    unfold autoOpenMainFile
    rw [hfilter]
    simp
  · intro s2 hne
    unfold autoOpenMainFile
    have : ¬ ((files.filter isMainFileName).length > 0 ∧ s2.openTabs.length = 0) := by
      intro ⟨_, hlen⟩
      exact hne (List.length_eq_zero.mp hlen)
    rw [if_neg this]

theorem autoOpen_spec_witness :
    (autoOpenMainFile nestedAppTree freshEditorState).openTabs = ["main.tsx"] ∧
    (autoOpenMainFile nestedAppTree freshEditorState).fileContents =
      [("main.tsx", "render()")] := by
  have h := (autoOpen_spec nestedAppTree freshEditorState rfl).1
    (.node "main.tsx" "main.tsx" "file" (some "render()") []) [] rfl
  refine ⟨by rw [h.1]; rfl, ?_⟩
  rw [h.2.2.1 "render()" rfl (by decide)]
  rfl


/-- C4 counterexample: a response with two fenced blocks whose language tags
differ produces two artifacts with two different names, refuting the claim
that any two fenced blocks in one response yield identically named
artifacts. -/
theorem artifact_names_counterexample :
    extractArtifacts "```python\nprint(1)\n```\n```js\nx\n```" =
      [("print(1)", "generated.python"), ("x", "generated.js")] ∧
    ("generated.python" : String) ≠ "generated.js" := by decide

/-- Every emitted artifact has a non-whitespace body and a name determined
by the language tag alone. -/
theorem blockArtifact_inv (block : String) (c n : String)
    (h : blockArtifact block = some (c, n)) :
    jsTrim c ≠ "" ∧ c = fenceBody block ∧ n = artifactName (fenceTag block) := by
  unfold blockArtifact at h
  by_cases he : jsTrim (fenceBody block) = ""
  · rw [if_pos he] at h
    cases h
  · rw [if_neg he] at h
    simp only [Option.some.injEq, Prod.mk.injEq] at h
    obtain ⟨hc, hn⟩ := h
    subst hc
    subst hn
    exact ⟨he, rfl, rfl⟩

/-- C4 amended: extraction is deterministic in the response text; the
python example yields exactly one artifact with body print(1) and name
generated.python; every emitted artifact has a non-whitespace body and is
named generated.<tag> with txt substituted for an empty tag, so the name
depends on the language tag alone and two blocks with equal tags (for
example two untagged blocks) collide; a whitespace-only body yields no
artifact. -/
theorem extraction_round_trip :
    extractArtifacts "```python\nprint(1)\n```" = [("print(1)", "generated.python")] ∧
    (∀ block c n, blockArtifact block = some (c, n) →
      jsTrim c ≠ "" ∧ n = artifactName (fenceTag block)) ∧
    (∀ b1 b2 c1 n1 c2 n2, blockArtifact b1 = some (c1, n1) →
      blockArtifact b2 = some (c2, n2) → fenceTag b1 = fenceTag b2 → n1 = n2) ∧
    (∀ block, jsTrim (fenceBody block) = "" → blockArtifact block = none) ∧
    extractArtifacts "```\nfoo\n```\n```\nbar\n```" =
      [("foo", "generated.txt"), ("bar", "generated.txt")] := by
  refine ⟨by decide, ?_, ?_, ?_, by decide⟩
  · intro block c n h
    obtain ⟨h1, _, h3⟩ := blockArtifact_inv block c n h
    exact ⟨h1, h3⟩
  · intro b1 b2 c1 n1 c2 n2 h1 h2 htag
    obtain ⟨_, _, hn1⟩ := blockArtifact_inv b1 c1 n1 h1
    obtain ⟨_, _, hn2⟩ := blockArtifact_inv b2 c2 n2 h2
    rw [hn1, hn2, htag]
  · intro block he
    unfold blockArtifact
    rw [if_pos he]

theorem extraction_round_trip_witness :
    blockArtifact "```python\nprint(1)\n```" = some ("print(1)", "generated.python") ∧
    jsTrim "print(1)" ≠ "" ∧
    "generated.python" = artifactName (fenceTag "```python\nprint(1)\n```") :=
  ⟨by decide,
   (extraction_round_trip.2.1 "```python\nprint(1)\n```" "print(1)" "generated.python"
     (by decide)).1,
   (extraction_round_trip.2.1 "```python\nprint(1)\n```" "print(1)" "generated.python"
     (by decide)).2⟩


/- ### Helper lemmas about handleSendWithTemplate -/

/-- A send against a state whose guard is raised is a complete no-op. -/
theorem send_noop_of_streaming (c : String) (t : Option String)
    (user : Option User) (pid : String) (env : SendEnv) (st : ChatState)
    (h : st.isStreaming = true) :
    handleSendWithTemplate c t user pid env st = (st, []) := by
  unfold handleSendWithTemplate
  cases user with
  | none => rfl
  | some u => simp [h]

theorem countUserPersists_append (l1 l2 : List Effect) :
    countUserPersists (l1 ++ l2) = countUserPersists l1 + countUserPersists l2 := by
  induction l1 with
  | nil => simp [countUserPersists]
  | cons e rest ih => cases e <;> simp [countUserPersists, ih] <;> omega

theorem countAssistantPersists_append (l1 l2 : List Effect) :
    countAssistantPersists (l1 ++ l2) =
      countAssistantPersists l1 + countAssistantPersists l2 := by
  induction l1 with
  | nil => simp [countAssistantPersists]
  | cons e rest ih => cases e <;> simp [countAssistantPersists, ih] <;> omega

theorem countInference_append (l1 l2 : List Effect) :
    countInference (l1 ++ l2) = countInference l1 + countInference l2 := by
  induction l1 with
  | nil => simp [countInference]
  | cons e rest ih => cases e <;> simp [countInference, ih] <;> omega

/-- A list of `codeGenerated` effects contains no persistence or inference
calls. -/
theorem counts_zero_of_all_codeGen (l : List Effect)
    (h : ∀ x ∈ l, ∃ c f, x = Effect.codeGenerated c f) :
    countUserPersists l = 0 ∧ countAssistantPersists l = 0 ∧
      countInference l = 0 := by
  induction l with
  | nil => exact ⟨rfl, rfl, rfl⟩
  | cons e rest ih =>
    obtain ⟨c, f, rfl⟩ := h e (List.mem_cons_self e rest)
    have := ih (fun x hx => h x (List.mem_cons_of_mem _ hx))
    simpa [countUserPersists, countAssistantPersists, countInference] using this

/-- Every artifact effect is an `onCodeGenerated` invocation. -/
theorem artifactEffects_all_codeGen (r : String) (ho : Option String) (b : Bool) :
    ∀ x ∈ artifactEffects r ho b, ∃ c f, x = Effect.codeGenerated c f := by
  intro x hx
  unfold artifactEffects at hx
  rw [List.mem_append] at hx
  rcases hx with hx | hx
  · rcases ho with _ | h
    · cases b <;> simp at hx
    · cases b
      · simp at hx
      · rcases eq_or_ne h "" with hh | hh
        · simp [hh] at hx
        · simp [hh] at hx
          exact ⟨h, "index.html", hx⟩
  · by_cases hcb : containsFence r ∧ b = true
    · rw [if_pos hcb] at hx
      rw [List.mem_map] at hx
      obtain ⟨a, _, rfl⟩ := hx
      exact ⟨a.1, a.2, rfl⟩
    · rw [if_neg hcb] at hx
      simp at hx

/-- The guard of an accepted send rejects neither branch of the disjunction. -/
theorem send_guard_neg (c : String) (s : ChatState)
    (hc : jsTrim c ≠ "") (hs : s.isStreaming = false) :
    ¬(jsTrim c = "" ∨ s.isStreaming = true) := by
  intro h
  rcases h with h | h
  · exact hc h
  · rw [hs] at h
    exact Bool.false_ne_true h

/-- Run lemma: the user-message persistence call throws. -/
theorem send_run_saveUserFail (c : String) (t : Option String) (u : User)
    (pid : String) (env : SendEnv) (s : ChatState) (e : JsError)
    (hc : jsTrim c ≠ "") (hs : s.isStreaming = false)
    (hsave : env.saveUser = .error e) :
    handleSendWithTemplate c t (some u) pid env s =
      ({ messages := s.messages, input := "", isStreaming := false },
       [Effect.dbCreateUser (mkUserMessage c pid u env),
        Effect.consoleError "Failed to send message:"]) := by
  unfold handleSendWithTemplate
  dsimp only
  rw [if_neg (send_guard_neg c s hc hs), hsave]
  simp [inflightState, List.dropLast_concat]

/-- Run lemma: the inference round-trip fails (network throw or an error
field in the payload). -/
theorem send_run_fetchFail (c : String) (t : Option String) (u : User)
    (pid : String) (env : SendEnv) (s : ChatState)
    (hc : jsTrim c ≠ "") (hs : s.isStreaming = false)
    (hsave : env.saveUser = .ok ())
    (hfail : (∃ e, env.fetch = .networkFailure e) ∨
             (∃ err resp html, env.fetch = .payload err resp html ∧
               jsTruthyOptStr err = true)) :
    handleSendWithTemplate c t (some u) pid env s =
      ({ messages := s.messages ++ [mkUserMessage c pid u env], input := "",
         isStreaming := false },
       [Effect.dbCreateUser (mkUserMessage c pid u env),
        Effect.inferenceRequest (requestBody c pid u env s) t,
        Effect.consoleError "Failed to send message:"]) := by
  unfold handleSendWithTemplate
  dsimp only
  rw [if_neg (send_guard_neg c s hc hs), hsave]
  rcases hfail with ⟨e, hf⟩ | ⟨err, resp, html, hf, htr⟩
  · rw [hf]
    simp [inflightState, List.dropLast_concat]
  · rw [hf]
    simp [htr, inflightState, List.dropLast_concat]

/-- A non-truthy error field is absent or the empty string. -/
theorem jsTruthyOptStr_eq_false (err : Option String)
    (herr : jsTruthyOptStr err = false) : err = none ∨ err = some "" := by
  cases err with
  | none => exact Or.inl rfl
  | some e =>
    refine Or.inr ?_
    simp [jsTruthyOptStr] at herr
    rw [herr]

/-- Run lemma: the whole send succeeds (the payload's error field is
falsy — absent or empty). -/
theorem send_run_success (c : String) (t : Option String) (u : User)
    (pid : String) (env : SendEnv) (s : ChatState) (err : Option String)
    (resp : String) (html : Option String)
    (hc : jsTrim c ≠ "") (hs : s.isStreaming = false)
    (hsave : env.saveUser = .ok ())
    (hfetch : env.fetch = .payload err resp html)
    (herr : jsTruthyOptStr err = false)
    (hsaveA : env.saveAssistant = .ok ()) :
    (handleSendWithTemplate c t (some u) pid env s).2 =
      [Effect.dbCreateUser (mkUserMessage c pid u env),
       Effect.inferenceRequest (requestBody c pid u env s) t,
       Effect.dbCreateAssistant (mkAssistantMessage pid u env).id resp
         (mkAssistantMessage pid u env).timestamp] ++
      artifactEffects resp html env.onCodeGenerated := by
  rcases jsTruthyOptStr_eq_false err herr with rfl | rfl <;>
  · unfold handleSendWithTemplate
    dsimp only
    rw [if_neg (send_guard_neg c s hc hs), hsave, hfetch, hsaveA]
    exact rfl

/-- Run lemma: inference succeeds but persisting the assistant message
throws. -/
theorem send_run_saveAssistantFail (c : String) (t : Option String) (u : User)
    (pid : String) (env : SendEnv) (s : ChatState) (err : Option String)
    (resp : String) (html : Option String) (e : JsError)
    (hc : jsTrim c ≠ "") (hs : s.isStreaming = false)
    (hsave : env.saveUser = .ok ())
    (hfetch : env.fetch = .payload err resp html)
    (herr : jsTruthyOptStr err = false)
    (hsaveA : env.saveAssistant = .error e) :
    handleSendWithTemplate c t (some u) pid env s =
      ({ messages := ((s.messages ++ [mkUserMessage c pid u env]).map
           (fun msg => if msg.id = (mkAssistantMessage pid u env).id
             then { msg with content := resp } else msg)), input := "",
         isStreaming := false },
       [Effect.dbCreateUser (mkUserMessage c pid u env),
        Effect.inferenceRequest (requestBody c pid u env s) t,
        Effect.dbCreateAssistant (mkAssistantMessage pid u env).id resp
          (mkAssistantMessage pid u env).timestamp,
        Effect.consoleError "Failed to send message:"]) := by
  rcases jsTruthyOptStr_eq_false err herr with rfl | rfl <;>
  · unfold handleSendWithTemplate
    dsimp only
    rw [if_neg (send_guard_neg c s hc hs), hsave, hfetch, hsaveA]
    simp only [inflightState]
    rw [List.map_append]
    simp [List.dropLast_concat, mkAssistantMessage]
    exact herr


/-- Any accepted send attempts to persist the user message exactly once,
and persists the assistant message and calls the inference endpoint at
most once. -/
theorem send_accepted_counts (c : String) (t : Option String) (u : User)
    (pid : String) (env : SendEnv) (s : ChatState)
    (hc : jsTrim c ≠ "") (hs : s.isStreaming = false) :
    countUserPersists (handleSendWithTemplate c t (some u) pid env s).2 = 1 ∧
    countAssistantPersists (handleSendWithTemplate c t (some u) pid env s).2 ≤ 1 ∧
    countInference (handleSendWithTemplate c t (some u) pid env s).2 ≤ 1 := by
  rcases hsu : env.saveUser with e | ⟨⟩
  · rw [send_run_saveUserFail c t u pid env s e hc hs hsu]
    simp [countUserPersists, countAssistantPersists, countInference]
  · rcases hf : env.fetch with e | ⟨err, resp, html⟩
    · rw [send_run_fetchFail c t u pid env s hc hs hsu (Or.inl ⟨e, hf⟩)]
      simp [countUserPersists, countAssistantPersists, countInference]
    · by_cases htr : jsTruthyOptStr err = true
      · rw [send_run_fetchFail c t u pid env s hc hs hsu
          (Or.inr ⟨err, resp, html, hf, htr⟩)]
        simp [countUserPersists, countAssistantPersists, countInference]
      · have herr : jsTruthyOptStr err = false := by
          cases h2 : jsTruthyOptStr err with
          | false => rfl
          | true => exact absurd h2 htr
        rcases hsa : env.saveAssistant with e2 | ⟨⟩
        · rw [send_run_saveAssistantFail c t u pid env s err resp html e2
            hc hs hsu hf herr hsa]
          simp [countUserPersists, countAssistantPersists, countInference]
        · rw [send_run_success c t u pid env s err resp html hc hs hsu hf herr hsa]
          have h0 := counts_zero_of_all_codeGen _
            (artifactEffects_all_codeGen resp html env.onCodeGenerated)
          rw [countUserPersists_append, countAssistantPersists_append,
            countInference_append, h0.1, h0.2.1, h0.2.2]
          simp [countUserPersists, countAssistantPersists, countInference]

/-- Any accepted send whose user-message persistence succeeds issues the
inference request with the windowed body. -/
theorem inference_in_trace (c : String) (t : Option String) (u : User)
    (pid : String) (env : SendEnv) (s : ChatState)
    (hc : jsTrim c ≠ "") (hs : s.isStreaming = false)
    (hsave : env.saveUser = .ok ()) :
    Effect.inferenceRequest (requestBody c pid u env s) t ∈
      (handleSendWithTemplate c t (some u) pid env s).2 := by
  rcases hf : env.fetch with e | ⟨err, resp, html⟩
  · rw [send_run_fetchFail c t u pid env s hc hs hsave (Or.inl ⟨e, hf⟩)]
    simp
  · by_cases htr : jsTruthyOptStr err = true
    · rw [send_run_fetchFail c t u pid env s hc hs hsave
        (Or.inr ⟨err, resp, html, hf, htr⟩)]
      simp
    · have herr : jsTruthyOptStr err = false := by
        cases h2 : jsTruthyOptStr err with
        | false => rfl
        | true => exact absurd h2 htr
      rcases hsa : env.saveAssistant with e2 | ⟨⟩
      · rw [send_run_saveAssistantFail c t u pid env s err resp html e2
          hc hs hsave hf herr hsa]
        simp
      · rw [send_run_success c t u pid env s err resp html hc hs hsave hf herr hsa]
        simp

/-- A user-message id never coincides with an assistant-message id: the two
id templates end in different characters. -/
theorem userId_ne_assistantId (a b : Nat) :
    ("msg_" ++ toString a ++ "_user") ≠ ("msg_" ++ toString b ++ "_assistant") := by
  intro h
  have h1 : (("msg_" ++ toString a) ++ "_user").data.getLast? = some 'r' := by
    rw [String.data_append, List.getLast?_append_of_ne_nil _ (by decide)]
    decide
  have h2 : (("msg_" ++ toString b) ++ "_assistant").data.getLast? = some 't' := by
    rw [String.data_append, List.getLast?_append_of_ne_nil _ (by decide)]
    decide
  rw [h, h2] at h1
  simp at h1

/-- C1: the outstanding-request guard serializes send — any invocation
against a state with the guard raised is a complete no-op (no appended
message, no persistence, no inference); in particular a second send issued
back-to-back against the in-flight state of an accepted first send is
rejected; and one accepted send persists the user message exactly once and
the assistant message and inference request at most once, with exactly one
user/assistant pair persisted on the fully successful path. -/
theorem send_serialized (content content2 : String)
    (template template2 : Option String) (u u2 : User) (pid pid2 : String)
    (env env2 : SendEnv) (s : ChatState)
    (hc : jsTrim content ≠ "") (hs : s.isStreaming = false) :
    (∀ (c : String) (t : Option String) (usr : Option User) (p : String)
        (e : SendEnv) (st : ChatState), st.isStreaming = true →
        handleSendWithTemplate c t usr p e st = (st, [])) ∧
    handleSendWithTemplate content2 template2 (some u2) pid2 env2
        (inflightState content pid u env s) =
      (inflightState content pid u env s, []) ∧
    countUserPersists (handleSendWithTemplate content template (some u) pid env s).2 = 1 ∧
    countAssistantPersists (handleSendWithTemplate content template (some u) pid env s).2 ≤ 1 ∧
    countInference (handleSendWithTemplate content template (some u) pid env s).2 ≤ 1 ∧
    (∀ (resp : String) (html : Option String), env.saveUser = .ok () →
      env.fetch = .payload none resp html → env.saveAssistant = .ok () →
      countAssistantPersists
          (handleSendWithTemplate content template (some u) pid env s).2 = 1 ∧
      countInference (handleSendWithTemplate content template (some u) pid env s).2 = 1) := by
  obtain ⟨hcu, hca, hci⟩ := send_accepted_counts content template u pid env s hc hs
  refine ⟨fun c t usr p e st h => send_noop_of_streaming c t usr p e st h,
    send_noop_of_streaming content2 template2 (some u2) pid2 env2 _ rfl,
    hcu, hca, hci, ?_⟩
  intro resp html hsu hf hsa
  rw [send_run_success content template u pid env s none resp html hc hs hsu hf rfl hsa]
  have h0 := counts_zero_of_all_codeGen _
    (artifactEffects_all_codeGen resp html env.onCodeGenerated)
  rw [countAssistantPersists_append, countInference_append, h0.2.1, h0.2.2]
  simp [countAssistantPersists, countInference]

/-- A fully successful environment used by the chat witnesses. -/
def okEnv : SendEnv :=
  { t1 := 1, t2 := 2, t3 := 3, t4 := 4, saveUser := .ok (),
    fetch := .payload none "hello" none, saveAssistant := .ok (),
    onCodeGenerated := false }

theorem send_serialized_witness :
    handleSendWithTemplate "hi" none (some ⟨"u1"⟩) "p" okEnv
        (inflightState "hello" "p" ⟨"u1"⟩ okEnv ⟨[], "", false⟩) =
      (inflightState "hello" "p" ⟨"u1"⟩ okEnv ⟨[], "", false⟩, []) ∧
    countUserPersists
        (handleSendWithTemplate "hello" none (some ⟨"u1"⟩) "p" okEnv ⟨[], "", false⟩).2 = 1 :=
  ⟨(send_serialized "hello" "hi" none none ⟨"u1"⟩ ⟨"u1"⟩ "p" "p" okEnv okEnv
      ⟨[], "", false⟩ (by decide) rfl).2.1,
   (send_serialized "hello" "hi" none none ⟨"u1"⟩ ⟨"u1"⟩ "p" "p" okEnv okEnv
      ⟨[], "", false⟩ (by decide) rfl).2.2.1⟩

/-- C2: when the inference round-trip fails (network throw, or a truthy —
non-empty — error field, the condition `if (data.error)` actually tests),
the send rolls back the provisional assistant message: the log afterwards
is the prior log plus the user message only, the guard is cleared, no
assistant message is persisted, and any subsequent accepted send proceeds
(it attempts its own user persist). -/
theorem send_rollback_on_inference_failure (content : String)
    (template : Option String) (u : User) (pid : String) (env : SendEnv)
    (s : ChatState)
    (hc : jsTrim content ≠ "") (hs : s.isStreaming = false)
    (hsave : env.saveUser = .ok ())
    (hfail : (∃ e, env.fetch = .networkFailure e) ∨
             (∃ err resp html, env.fetch = .payload (some err) resp html ∧
               err ≠ "")) :
    (handleSendWithTemplate content template (some u) pid env s).1.messages =
      s.messages ++ [mkUserMessage content pid u env] ∧
    (mkUserMessage content pid u env).role = "user" ∧
    (handleSendWithTemplate content template (some u) pid env s).1.isStreaming = false ∧
    countAssistantPersists
        (handleSendWithTemplate content template (some u) pid env s).2 = 0 ∧
    (∀ (c2 : String) (t2 : Option String) (u2 : User) (p2 : String)
        (env2 : SendEnv), jsTrim c2 ≠ "" →
      countUserPersists (handleSendWithTemplate c2 t2 (some u2) p2 env2
        (handleSendWithTemplate content template (some u) pid env s).1).2 = 1) := by
  have hfail' : (∃ e, env.fetch = .networkFailure e) ∨
      (∃ err resp html, env.fetch = .payload err resp html ∧
        jsTruthyOptStr err = true) := by
    rcases hfail with h | ⟨err, resp, html, hf, hne⟩
    · exact Or.inl h
    · exact Or.inr ⟨some err, resp, html, hf, by simp [jsTruthyOptStr, hne]⟩
  rw [send_run_fetchFail content template u pid env s hc hs hsave hfail']
  refine ⟨rfl, rfl, rfl, by simp [countAssistantPersists], ?_⟩
  intro c2 t2 u2 p2 env2 hc2
  exact (send_accepted_counts c2 t2 u2 p2 env2 _ hc2 rfl).1

/-- An environment whose inference call throws. -/
def netFailEnv : SendEnv :=
  { t1 := 1, t2 := 2, t3 := 3, t4 := 4, saveUser := .ok (),
    fetch := .networkFailure .nonError, saveAssistant := .ok (),
    onCodeGenerated := false }

theorem send_rollback_witness :
    (handleSendWithTemplate "hi" none (some ⟨"u1"⟩) "p" netFailEnv
        ⟨[], "", false⟩).1.messages =
      [] ++ [mkUserMessage "hi" "p" ⟨"u1"⟩ netFailEnv] ∧
    (handleSendWithTemplate "hi" none (some ⟨"u1"⟩) "p" netFailEnv
        ⟨[], "", false⟩).1.isStreaming = false :=
  ⟨(send_rollback_on_inference_failure "hi" none ⟨"u1"⟩ "p" netFailEnv
      ⟨[], "", false⟩ (by decide) rfl rfl (Or.inl ⟨.nonError, rfl⟩)).1,
   (send_rollback_on_inference_failure "hi" none ⟨"u1"⟩ "p" netFailEnv
      ⟨[], "", false⟩ (by decide) rfl rfl (Or.inl ⟨.nonError, rfl⟩)).2.2.1⟩


/-- C3: for a conversation with at least five prior messages, the inference
request body is exactly the five most recent prior messages (a suffix of
the log of length five, in original order) followed by the new user
message, each reduced to its role and content. -/
theorem context_window (content : String) (template : Option String)
    (u : User) (pid : String) (env : SendEnv) (s : ChatState)
    (hc : jsTrim content ≠ "") (hs : s.isStreaming = false)
    (hsave : env.saveUser = .ok ()) (h5 : 5 ≤ s.messages.length) :
    Effect.inferenceRequest
        (((s.messages.reverse.take 5).reverse ++
            [mkUserMessage content pid u env]).map
          (fun m => (m.role, m.content))) template ∈
      (handleSendWithTemplate content template (some u) pid env s).2 ∧
    (s.messages.reverse.take 5).reverse.length = 5 ∧
    (s.messages.reverse.take 5).reverse <:+ s.messages := by
  have hdrop : (s.messages.reverse.take 5).reverse =
      s.messages.drop (s.messages.length - 5) := by
    rw [List.take_reverse, List.reverse_reverse]
  refine ⟨?_, ?_, ?_⟩
  · have hbody : requestBody content pid u env s =
        ((s.messages.reverse.take 5).reverse ++
          [mkUserMessage content pid u env]).map
          (fun m => (m.role, m.content)) := by
      rw [hdrop]
      rfl
    rw [← hbody]
    exact inference_in_trace content template u pid env s hc hs hsave
  · rw [List.length_reverse, List.length_take, List.length_reverse]
    omega
  · rw [hdrop]
    exact List.drop_suffix _ _

/-- A six-message conversation log used by the windowing witness. -/
def sixMessages : List ChatMessage :=
  (List.range 6).map (fun i =>
    { id := "m" ++ toString i, role := "user", content := "c" ++ toString i,
      timestamp := i, projectId := "p", userId := "u1" })

theorem context_window_witness :
    Effect.inferenceRequest
        (((sixMessages.reverse.take 5).reverse ++
            [mkUserMessage "hi" "p" ⟨"u1"⟩ okEnv]).map
          (fun m => (m.role, m.content))) none ∈
      (handleSendWithTemplate "hi" none (some ⟨"u1"⟩) "p" okEnv
        ⟨sixMessages, "", false⟩).2 :=
  (context_window "hi" none ⟨"u1"⟩ "p" okEnv ⟨sixMessages, "", false⟩
    (by decide) rfl rfl (by decide)).1

/-- C5 counterexample environment: persisting the user message throws. -/
def saveUserFailEnv : SendEnv :=
  { t1 := 1, t2 := 2, t3 := 3, t4 := 4,
    saveUser := .error (.errorObj "db down"),
    fetch := .payload none "hello" none, saveAssistant := .ok (),
    onCodeGenerated := false }

/-- C5 counterexample: when persisting the user message fails, no inference
call is issued and the user message does not remain in the log — the send
is aborted, refuting best-effort persistence. -/
theorem persist_failure_counterexample :
    countInference (handleSendWithTemplate "hi" none (some ⟨"u1"⟩) "p"
      saveUserFailEnv ⟨[], "", false⟩).2 = 0 ∧
    (handleSendWithTemplate "hi" none (some ⟨"u1"⟩) "p" saveUserFailEnv
      ⟨[], "", false⟩).1.messages = [] := by decide

/-- C5 amended: a failure while persisting the user message is logged but
aborts the send — no inference call is issued and the rollback removes the
optimistically appended user message (the last message at that point),
leaving the log as it was; the guard is cleared. -/
theorem persist_failure_aborts (content : String) (template : Option String)
    (u : User) (pid : String) (env : SendEnv) (s : ChatState) (e : JsError)
    (hc : jsTrim content ≠ "") (hs : s.isStreaming = false)
    (hsave : env.saveUser = .error e) :
    (handleSendWithTemplate content template (some u) pid env s).1.messages =
      s.messages ∧
    (handleSendWithTemplate content template (some u) pid env s).1.isStreaming = false ∧
    countInference (handleSendWithTemplate content template (some u) pid env s).2 = 0 ∧
    Effect.consoleError "Failed to send message:" ∈
      (handleSendWithTemplate content template (some u) pid env s).2 ∧
    Effect.dbCreateUser (mkUserMessage content pid u env) ∈
      (handleSendWithTemplate content template (some u) pid env s).2 := by
  rw [send_run_saveUserFail content template u pid env s e hc hs hsave]
  exact ⟨rfl, rfl, by simp [countInference], by simp, by simp⟩

theorem persist_failure_aborts_witness :
    (handleSendWithTemplate "hi" none (some ⟨"u1"⟩) "p" saveUserFailEnv
      ⟨[], "", false⟩).1.messages = [] ∧
    (handleSendWithTemplate "hi" none (some ⟨"u1"⟩) "p" saveUserFailEnv
      ⟨[], "", false⟩).1.isStreaming = false :=
  ⟨(persist_failure_aborts "hi" none ⟨"u1"⟩ "p" saveUserFailEnv ⟨[], "", false⟩
      (.errorObj "db down") (by decide) rfl rfl).1,
   (persist_failure_aborts "hi" none ⟨"u1"⟩ "p" saveUserFailEnv ⟨[], "", false⟩
      (.errorObj "db down") (by decide) rfl rfl).2.1⟩

/-- C10: when inference succeeds but persisting the finalized assistant
message fails, the send removes the assistant message (with its received
content) from the log, leaving the prior log plus the user message, runs no
artifact extraction callback, logs the failure, and clears the guard. -/
theorem assistant_persist_failure_rollback (content : String)
    (template : Option String) (u : User) (pid : String) (env : SendEnv)
    (s : ChatState) (resp : String) (html : Option String) (e : JsError)
    (hc : jsTrim content ≠ "") (hs : s.isStreaming = false)
    (hsave : env.saveUser = .ok ())
    (hfetch : env.fetch = .payload none resp html)
    (hsaveA : env.saveAssistant = .error e)
    (hfresh : ∀ m ∈ s.messages, m.id ≠ (mkAssistantMessage pid u env).id) :
    (handleSendWithTemplate content template (some u) pid env s).1.messages =
      s.messages ++ [mkUserMessage content pid u env] ∧
    countCodeGenerated
        (handleSendWithTemplate content template (some u) pid env s).2 = 0 ∧
    Effect.consoleError "Failed to send message:" ∈
      (handleSendWithTemplate content template (some u) pid env s).2 ∧
    (handleSendWithTemplate content template (some u) pid env s).1.isStreaming = false := by
  rw [send_run_saveAssistantFail content template u pid env s none resp html e
    hc hs hsave hfetch rfl hsaveA]
  refine ⟨?_, by simp [countCodeGenerated], by simp, rfl⟩
  show ((s.messages ++ [mkUserMessage content pid u env]).map _) = _
  have hmap : ∀ m ∈ s.messages ++ [mkUserMessage content pid u env],
      (fun msg => if msg.id = (mkAssistantMessage pid u env).id
        then { msg with content := resp } else msg) m = id m := by
    intro m hm
    rw [List.mem_append] at hm
    rcases hm with hm | hm
    · simp only [id]
      rw [if_neg (hfresh m hm)]
    · rw [List.mem_singleton] at hm
      subst hm
      simp only [id]
      rw [if_neg (show (mkUserMessage content pid u env).id ≠
        (mkAssistantMessage pid u env).id from userId_ne_assistantId env.t1 env.t3)]
  rw [List.map_congr_left hmap, List.map_id]

theorem assistant_persist_failure_witness :
    (handleSendWithTemplate "hi" none (some ⟨"u1"⟩) "p"
        { t1 := 1, t2 := 2, t3 := 3, t4 := 4, saveUser := .ok (),
          fetch := .payload none "hello" none,
          saveAssistant := .error (.errorObj "db down"), onCodeGenerated := true }
        ⟨[], "", false⟩).1.messages =
      [] ++ [mkUserMessage "hi" "p" ⟨"u1"⟩
        { t1 := 1, t2 := 2, t3 := 3, t4 := 4, saveUser := .ok (),
          fetch := .payload none "hello" none,
          saveAssistant := .error (.errorObj "db down"), onCodeGenerated := true }] :=
  (assistant_persist_failure_rollback "hi" none ⟨"u1"⟩ "p" _ ⟨[], "", false⟩
    "hello" none (.errorObj "db down") (by decide) rfl rfl rfl rfl
    (by intro m hm; cases hm)).1

end Agisol
